import Mathlib

/-!
Shallow embedding of a browser front-end for a generative video API
(image + script + aspect ratio → video).  The embedding covers:

* the service layer `generateVideoFromImage` (image encoding check,
  status poll loop, completion check, result extraction, download), with
  the remote service's behaviour supplied as explicit environment data;
* the application state machine (`handleSubmit`, `resetState`, the
  key-selector callback `handleSelectKey`), with React state captured
  as an explicit `AppState` record.

JavaScript-specific behaviours (string falsiness, `String.includes`,
optional chaining, `${undefined}` rendering) are modelled explicitly.
-/

namespace Veo

/-- JS `pat` is a leading segment of `cs` (character-level helper for
`String.prototype.includes`). -/
def charsLead : List Char → List Char → Bool
  | [], _ => true
  | _ :: _, [] => false
  | a :: as, b :: bs => a == b && charsLead as bs

/-- JS substring search over character lists. -/
def charsContain (pat : List Char) : List Char → Bool
  | [] => charsLead pat []
  | b :: bs => charsLead pat (b :: bs) || charsContain pat bs

/-- `strIncludes s pat` models JS `s.includes(pat)`. -/
def strIncludes (s pat : String) : Bool :=
  charsContain pat.data s.data

/-- JS template rendering of a possibly-`undefined` string
(`${undefined}` prints `"undefined"`). -/
def jsStr : Option String → String
  | none => "undefined"
  | some s => s

/-- JS falsiness of an optional string: `undefined`/`null` and `""` are
falsy. -/
def jsFalsyStr : Option String → Bool
  | none => true
  | some s => s == ""

/-- `AspectRatio` from types.ts: `'16:9' | '9:16'`. -/
inductive AspectRatio where
  | r16x9
  | r9x16
deriving DecidableEq

/-- `GenerationState` from types.ts:
`'idle' | 'loading' | 'polling' | 'success' | 'error' | 'selecting_key'`. -/
inductive GenerationState where
  | idle
  | loading
  | polling
  | success
  | error
  | selecting_key
deriving DecidableEq

/-- `video` object inside a generated-video entry; `uri` is optional. -/
structure VideoRef where
  uri : Option String
deriving DecidableEq

/-- One entry of `response.generatedVideos`. -/
structure GeneratedVideo where
  video : Option VideoRef
deriving DecidableEq

/-- `operation.response`: optional list of generated videos. -/
structure OpResponse where
  generatedVideos : Option (List GeneratedVideo)
deriving DecidableEq

/-- `operation.error`: remote error payload with an optional message. -/
structure OpError where
  message : Option String
deriving DecidableEq

/-- Remote `GenerationOperation` handle: done flag, optional error
payload, optional response. -/
structure Operation where
  done : Bool
  error : Option OpError
  response : Option OpResponse
deriving DecidableEq

/-- Outcome of one `ai.operations.getVideosOperation` call: either the
call threw (with the thrown error's message) or it returned an updated
operation. -/
inductive PollResult where
  | threw (msg : String)
  | updated (op : Operation)
deriving DecidableEq

/-- The substring the poll-loop `catch` tests for:
`e.message?.includes("Requested entity was not found")`. -/
def notFoundMsg : String := "Requested entity was not found"

/-- The substring the download error path tests for:
`errorText.includes("API key not valid")`. -/
def invalidKeyMsg : String := "API key not valid"

/-- The poll loop of `generateVideoFromImage`:
`while (!operation.done) { sleep 10s; operation = getVideosOperation(...) }`
with the `catch` reinterpreting a "Requested entity was not found"
message as `API_KEY_ERROR` and rethrowing anything else.  The remote
service's successive answers are supplied as a list; `none` means the
supplied answers ran out before the operation was observed done (the
loop would still be running). -/
def pollLoop : Operation → List PollResult → Option (Except String Operation)
  | op, [] => if op.done then some (Except.ok op) else none
  | op, p :: rest =>
    if op.done then some (Except.ok op)
    else
      match p with
      | PollResult.threw msg =>
        if strIncludes msg notFoundMsg then some (Except.error "API_KEY_ERROR")
        else some (Except.error msg)
      | PollResult.updated next => pollLoop next rest

/-- `operation.response?.generatedVideos?.[0]?.video?.uri` via optional
chaining. -/
def getDownloadLink (op : Operation) : Option String :=
  ((((op.response).bind fun r => r.generatedVideos).bind List.head?).bind
    fun g => g.video).bind fun v => v.uri

/-- The `fetch` response for the video download: HTTP ok flag, the body
text read on failure, the status text, and the object URL produced from
the blob on success. -/
structure HttpResponse where
  ok : Bool
  body : String
  statusText : String
  blobUrl : String
deriving DecidableEq

/-- The download step of `generateVideoFromImage`: a non-ok response
whose body includes "API key not valid" becomes `API_KEY_ERROR`, any
other non-ok response becomes `Failed to download video: <statusText>`;
on success the blob's object URL is returned. -/
def downloadStep (resp : HttpResponse) : Except String String :=
  if !resp.ok then
    if strIncludes resp.body invalidKeyMsg then Except.error "API_KEY_ERROR"
    else Except.error ("Failed to download video: " ++ resp.statusText)
  else Except.ok resp.blobUrl

/-- Environment data consumed by one run of `generateVideoFromImage`:
the base64 payload produced from the image file (`""` when the reader
did not yield a string), the operation returned by `generateVideos`,
the successive poll answers, and the download response. -/
structure PipelineEnv where
  imageData : String
  initialOp : Operation
  polls : List PollResult
  download : HttpResponse
deriving DecidableEq

/-- `generateVideoFromImage` from the service layer, as a function of
its environment.  `none` means the poll loop was still running when the
supplied poll answers ran out; otherwise the promise resolved with a
video object URL or rejected with an error message. -/
def generateVideoFromImage (env : PipelineEnv) : Option (Except String String) :=
  if env.imageData == "" then
    some (Except.error "Failed to convert image to base64.")
  else
    match pollLoop env.initialOp env.polls with
    | none => none
    | some (Except.error msg) => some (Except.error msg)
    | some (Except.ok op) =>
      match op.error with
      | some e => some (Except.error ("Video generation failed: " ++ jsStr e.message))
      | none =>
        let dl := getDownloadLink op
        if jsFalsyStr dl then
          some (Except.error "Could not retrieve video download link.")
        else some (downloadStep env.download)

/-- The React state of `App`, one field per `useState` hook.  A `File`
is modelled by its name. -/
structure AppState where
  imageFile : Option String
  imagePreview : Option String
  script : String
  aspectRatio : AspectRatio
  generationState : GenerationState
  videoUrl : Option String
  error : Option String
  loadingMessage : String
  apiKeySelected : Option Bool
deriving DecidableEq

/-- The guard at the top of `handleSubmit`:
`if (!imageFile || !script || !apiKeySelected) return;`
(`!script` is true exactly on the empty string, `!apiKeySelected` is
true on `null` and `false`). -/
def submitBlocked (s : AppState) : Bool :=
  s.imageFile.isNone || (s.script == "") || !(s.apiKeySelected == some true)

/-- `handleSubmit`, as a function of the pipeline's resolved outcome.
Returns the final state together with the sequence of values assigned
to `generationState` during the call.  When the guard fires the handler
returns at once, touching nothing. -/
def handleSubmit (s : AppState) (outcome : Except String String) :
    AppState × List GenerationState :=
  if submitBlocked s then (s, [])
  else
    let s1 : AppState :=
      { s with generationState := GenerationState.loading, error := none,
               videoUrl := none }
    let step : AppState × List GenerationState :=
      match outcome with
      | Except.ok url =>
        ({ s1 with videoUrl := some url,
                   generationState := GenerationState.success },
         [GenerationState.loading, GenerationState.success])
      | Except.error msg =>
        if msg == "API_KEY_ERROR" then
          ({ s1 with
               error := some "Your API Key is invalid or missing permissions. Please select a valid key.",
               apiKeySelected := some false,
               generationState := GenerationState.selecting_key },
           [GenerationState.loading, GenerationState.selecting_key])
        else
          ({ s1 with
               error := some (if msg == "" then "An unknown error occurred." else msg),
               generationState := GenerationState.error },
           [GenerationState.loading, GenerationState.error])
    ({ step.1 with loadingMessage := "" }, step.2)

/-- `resetState`: clears the image, preview, script, video URL and
error, and returns to `idle` when an API key is selected, else to
`selecting_key`. -/
def resetState (s : AppState) : AppState :=
  { s with imageFile := none, imagePreview := none, script := "",
           videoUrl := none, error := none,
           generationState :=
             if s.apiKeySelected = some true then GenerationState.idle
             else GenerationState.selecting_key }

/-- `isGenerating`: `generationState === 'loading' || generationState === 'polling'`. -/
def isGenerating (s : AppState) : Bool :=
  (s.generationState == GenerationState.loading) ||
  (s.generationState == GenerationState.polling)

/-- The `disabled` attribute of the Generate Video button:
`!imageFile || !script || isGenerating`. -/
def submitDisabled (s : AppState) : Bool :=
  s.imageFile.isNone || (s.script == "") || isGenerating s

/-- Whether the form (and with it the Generate Video button) is
rendered at all: the JSX guards it with `{apiKeySelected && ...}`. -/
def formRendered (s : AppState) : Bool :=
  s.apiKeySelected == some true

/-- The `aistudio` environment seen by the key selector: the outcomes
of `openSelectKey()` and of `hasSelectedApiKey()`. -/
structure AiStudioEnv where
  openSelectKeyResult : Except String Unit
  hasSelectedApiKeyResult : Except String Bool

/-- The `onKeySelected` callback `App` passes to `ApiKeySelector`:
`setApiKeySelected(true); setGenerationState('idle')`. -/
def onKeySelected (s : AppState) : AppState :=
  { s with apiKeySelected := some true,
           generationState := GenerationState.idle }

/-- `handleSelectKey` in `ApiKeySelector`: awaits `openSelectKey()`;
when it resolves, invokes `onKeySelected`; when it throws, only logs. -/
def handleSelectKey (env : AiStudioEnv) (s : AppState) : AppState :=
  match env.openSelectKeyResult with
  | Except.ok _ => onKeySelected s
  | Except.error _ => s

/-- A poll answer that ends the loop: a thrown query error, or an
updated operation with the done flag set. -/
def settlingEvent : PollResult → Bool
  | PollResult.threw _ => true
  | PollResult.updated o => o.done

/-- The remote service eventually marks the operation done or a query
fails: the loop's termination precondition. -/
def eventuallySettles (op : Operation) (polls : List PollResult) : Bool :=
  op.done || polls.any settlingEvent

/-- A run of poll answers during which the loop keeps spinning: every
answer is an updated, still-pending operation. -/
def allPendingUpdates : List PollResult → Bool
  | [] => true
  | PollResult.threw _ :: _ => false
  | PollResult.updated o :: rest => !o.done && allPendingUpdates rest

/-! Concrete sample values used to exercise the model. -/

/-- An operation that is still running. -/
def pendingOp : Operation := { done := false, error := none, response := none }

/-- A completed operation carrying a download URI. -/
def doneResultOp : Operation :=
  { done := true, error := none,
    response := some (OpResponse.mk (some
      [GeneratedVideo.mk (some (VideoRef.mk (some "https://dl.example/video")))])) }

/-- A completed operation carrying a remote error payload. -/
def doneErrorOp : Operation :=
  { done := true, error := some (OpError.mk (some "quota exceeded")),
    response := none }

/-- A completed operation with neither error nor response. -/
def doneBareOp : Operation :=
  { done := true, error := none, response := none }

/-- A successful download response. -/
def okDownload : HttpResponse :=
  { ok := true, body := "", statusText := "OK", blobUrl := "blob:demo-video" }

/-- A failed download response whose body flags an invalid key. -/
def invalidKeyDownload : HttpResponse :=
  { ok := false, body := "API key not valid. Please pass a valid API key.",
    statusText := "Forbidden", blobUrl := "" }

/-- A run whose first status query throws the not-found message. -/
def notFoundEnv : PipelineEnv :=
  { imageData := "aGVsbG8=", initialOp := pendingOp,
    polls := [PollResult.threw "Requested entity was not found: operations/abc123"],
    download := okDownload }

/-- A run that completes with a result but whose download is rejected
with an invalid-key body. -/
def invalidKeyEnv : PipelineEnv :=
  { imageData := "aGVsbG8=", initialOp := pendingOp,
    polls := [PollResult.updated doneResultOp], download := invalidKeyDownload }

/-- A run that completes with a remote error payload. -/
def genErrorEnv : PipelineEnv :=
  { imageData := "aGVsbG8=", initialOp := pendingOp,
    polls := [PollResult.updated doneErrorOp], download := okDownload }

/-- A run that completes without error but with no download URI. -/
def missingLinkEnv : PipelineEnv :=
  { imageData := "aGVsbG8=", initialOp := pendingOp,
    polls := [PollResult.updated doneBareOp], download := okDownload }

/-- An app state ready to submit: image, script and key all present. -/
def readyState : AppState :=
  { imageFile := some "photo.jpg",
    imagePreview := some "data:image/jpeg;base64,xyz",
    script := "A cinematic shot of this object on a beach at sunset.",
    aspectRatio := AspectRatio.r16x9, generationState := GenerationState.idle,
    videoUrl := none, error := none, loadingMessage := "",
    apiKeySelected := some true }

/-- A ready state with the image cleared. -/
def noImageState : AppState := { readyState with imageFile := none }

/-- An app state in the key-selection gate. -/
def keylessState : AppState :=
  { readyState with apiKeySelected := some false,
                    generationState := GenerationState.selecting_key }

/-- An aistudio environment whose selector dialog resolves and whose
`hasSelectedApiKey` would answer `false`. -/
def okSelectEnvNoKey : AiStudioEnv :=
  { openSelectKeyResult := Except.ok (),
    hasSelectedApiKeyResult := Except.ok false }

/-- An aistudio environment whose selector dialog resolves and whose
`hasSelectedApiKey` would answer `true`. -/
def okSelectEnvHasKey : AiStudioEnv :=
  { openSelectKeyResult := Except.ok (),
    hasSelectedApiKeyResult := Except.ok true }

/-! Helper lemmas shared by the claim theorems. -/

/-- A generation-failure message is never the `API_KEY_ERROR` sentinel. -/
theorem genFailMsg_ne_apiKeyError (m : String) :
    (("Video generation failed: " ++ m) == "API_KEY_ERROR") = false := by
  rw [beq_eq_false_iff_ne]
  intro h
  have hl := congrArg String.length h
  rw [String.length_append] at hl
  have h1 : ("Video generation failed: " : String).length = 25 := rfl
  have h2 : ("API_KEY_ERROR" : String).length = 13 := rfl
  rw [h1, h2] at hl
  omega

/-- A generation-failure message is never empty. -/
theorem genFailMsg_ne_empty (m : String) :
    (("Video generation failed: " ++ m) == "") = false := by
  rw [beq_eq_false_iff_ne]
  intro h
  have hl := congrArg String.length h
  rw [String.length_append] at hl
  have h1 : ("Video generation failed: " : String).length = 25 := rfl
  rw [h1] at hl
  simp at hl

/-- While every poll answer is a still-pending update, the loop keeps
consuming answers; the first thrown query whose message includes the
not-found marker aborts the whole loop with `API_KEY_ERROR`. -/
theorem pollLoop_notfound (pre : List PollResult) :
    ∀ (op : Operation) (msg : String) (rest : List PollResult),
      op.done = false → allPendingUpdates pre = true →
      strIncludes msg notFoundMsg = true →
      pollLoop op (pre ++ PollResult.threw msg :: rest) =
        some (Except.error "API_KEY_ERROR") := by
  induction pre with
  | nil =>
    intro op msg rest hop hpre hmsg
    simp [pollLoop, hop, hmsg]
  | cons p ps ih =>
    intro op msg rest hop hpre hmsg
    cases p with
    | threw m => simp [allPendingUpdates] at hpre
    | updated o =>
      simp only [allPendingUpdates, Bool.and_eq_true, Bool.not_eq_true'] at hpre
      simpa [pollLoop, hop] using ih o msg rest hpre.1 hpre.2 hmsg

/-- A poll-loop rejection propagates unchanged through the remainder of
the pipeline. -/
theorem generate_poll_error (env : PipelineEnv) (msg : String)
    (himg : (env.imageData == "") = false)
    (hpoll : pollLoop env.initialOp env.polls = some (Except.error msg)) :
    generateVideoFromImage env = some (Except.error msg) := by
  simp [generateVideoFromImage, himg, hpoll]

/-- A pipeline rejection with a message other than the sentinel leaves
`handleSubmit` in the generic error branch. -/
theorem handleSubmit_generic_error (s : AppState) (msg : String)
    (hs : submitBlocked s = false)
    (hne : (msg == "API_KEY_ERROR") = false) :
    (handleSubmit s (Except.error msg)).1.generationState = GenerationState.error ∧
    (handleSubmit s (Except.error msg)).1.videoUrl = none ∧
    (handleSubmit s (Except.error msg)).1.error =
      some (if msg == "" then "An unknown error occurred." else msg) := by
  simp [handleSubmit, hs, hne]

/-- C2: under the precondition that the remote service eventually marks
the operation done or a status query fails, the poll loop terminates
with one of exactly three outcomes: an error raised mid-poll, a done
operation carrying no error payload, or a done operation carrying an
error payload; it never returns without one of these. -/
theorem pollLoop_terminates (op : Operation) (polls : List PollResult)
    (h : eventuallySettles op polls = true) :
    ∃ r, pollLoop op polls = some r ∧
      ((∃ m, r = Except.error m) ∨
       (∃ o, r = Except.ok o ∧ o.done = true ∧ o.error = none) ∨
       (∃ o, r = Except.ok o ∧ o.done = true ∧ o.error ≠ none)) := by
  induction polls generalizing op with
  | nil =>
    simp [eventuallySettles] at h
    refine ⟨Except.ok op, by simp [pollLoop, h], ?_⟩
    cases he : op.error with
    | none => exact Or.inr (Or.inl ⟨op, rfl, h, he⟩)
    | some e => exact Or.inr (Or.inr ⟨op, rfl, h, by simp [he]⟩)
  | cons p rest ih =>
    by_cases hd : op.done = true
    · refine ⟨Except.ok op, by simp [pollLoop, hd], ?_⟩
      cases he : op.error with
      | none => exact Or.inr (Or.inl ⟨op, rfl, hd, he⟩)
      | some e => exact Or.inr (Or.inr ⟨op, rfl, hd, by simp [he]⟩)
    · have hd' : op.done = false := by simpa using hd
      cases p with
      | threw m =>
        by_cases hm : strIncludes m notFoundMsg = true
        · exact ⟨Except.error "API_KEY_ERROR", by simp [pollLoop, hd', hm],
            Or.inl ⟨"API_KEY_ERROR", rfl⟩⟩
        · have hm' : strIncludes m notFoundMsg = false := by simpa using hm
          exact ⟨Except.error m, by simp [pollLoop, hd', hm'], Or.inl ⟨m, rfl⟩⟩
      | updated o =>
        have hsettle : eventuallySettles o rest = true := by
          simp only [eventuallySettles, hd', List.any_cons, settlingEvent,
            Bool.false_or] at h
          simpa [eventuallySettles] using h
        simpa [pollLoop, hd'] using ih o hsettle

/-- C2 witness: a pending operation followed by one done answer settles,
and the loop terminates with one of the three outcomes. -/
theorem pollLoop_terminates_witness :
    eventuallySettles pendingOp [PollResult.updated doneResultOp] = true ∧
    (∃ r, pollLoop pendingOp [PollResult.updated doneResultOp] = some r ∧
      ((∃ m, r = Except.error m) ∨
       (∃ o, r = Except.ok o ∧ o.done = true ∧ o.error = none) ∨
       (∃ o, r = Except.ok o ∧ o.done = true ∧ o.error ≠ none))) :=
  ⟨by decide, pollLoop_terminates pendingOp [PollResult.updated doneResultOp] (by decide)⟩

/-- C1: a status-query failure whose message includes the not-found
marker makes the pipeline abort at once with `API_KEY_ERROR`, and the
submit handler then records the key as absent and moves the UI to
`selecting_key` rather than the generic error state. -/
theorem poll_notfound_aborts (env : PipelineEnv) (s : AppState)
    (pre rest : List PollResult) (msg : String)
    (himg : (env.imageData == "") = false)
    (hop : env.initialOp.done = false)
    (hpre : allPendingUpdates pre = true)
    (hpolls : env.polls = pre ++ PollResult.threw msg :: rest)
    (hmsg : strIncludes msg notFoundMsg = true)
    (hs : submitBlocked s = false) :
    generateVideoFromImage env = some (Except.error "API_KEY_ERROR") ∧
    (handleSubmit s (Except.error "API_KEY_ERROR")).1.apiKeySelected = some false ∧
    (handleSubmit s (Except.error "API_KEY_ERROR")).1.generationState =
      GenerationState.selecting_key := by
  have hp : pollLoop env.initialOp env.polls = some (Except.error "API_KEY_ERROR") := by
    rw [hpolls]
    exact pollLoop_notfound pre env.initialOp msg rest hop hpre hmsg
  refine ⟨generate_poll_error env _ himg hp, ?_, ?_⟩ <;>
    simp [handleSubmit, hs]

/-- C1 witness: a concrete run whose first status query throws the
not-found message aborts with `API_KEY_ERROR`, and submitting from a
ready state with that outcome lands in `selecting_key` with the key
flagged absent. -/
theorem poll_notfound_aborts_witness :
    (notFoundEnv.imageData == "") = false ∧
    strIncludes "Requested entity was not found: operations/abc123" notFoundMsg = true ∧
    submitBlocked readyState = false ∧
    generateVideoFromImage notFoundEnv = some (Except.error "API_KEY_ERROR") ∧
    (handleSubmit readyState (Except.error "API_KEY_ERROR")).1.apiKeySelected = some false ∧
    (handleSubmit readyState (Except.error "API_KEY_ERROR")).1.generationState =
      GenerationState.selecting_key :=
  ⟨by decide, by decide, by decide,
    (poll_notfound_aborts notFoundEnv readyState [] []
      "Requested entity was not found: operations/abc123"
      (by decide) (by decide) (by decide) rfl (by decide) (by decide)).1,
    (poll_notfound_aborts notFoundEnv readyState [] []
      "Requested entity was not found: operations/abc123"
      (by decide) (by decide) (by decide) rfl (by decide) (by decide)).2.1,
    (poll_notfound_aborts notFoundEnv readyState [] []
      "Requested entity was not found: operations/abc123"
      (by decide) (by decide) (by decide) rfl (by decide) (by decide)).2.2⟩

/-- C4: when a run reaches the download step and the HTTP response is
non-success, a body including the invalid-key marker makes the pipeline
fail with `API_KEY_ERROR` regardless of the particular status, and any
other non-success response fails with `Failed to download video:`
followed by the HTTP status text. -/
theorem download_failure_classified (env : PipelineEnv) (op : Operation) (link : String)
    (himg : (env.imageData == "") = false)
    (hpoll : pollLoop env.initialOp env.polls = some (Except.ok op))
    (herr : op.error = none)
    (hlink : getDownloadLink op = some link)
    (hne : (link == "") = false)
    (hok : env.download.ok = false) :
    generateVideoFromImage env =
      some (Except.error
        (if strIncludes env.download.body invalidKeyMsg then "API_KEY_ERROR"
         else "Failed to download video: " ++ env.download.statusText)) := by
  simp [generateVideoFromImage, himg, hpoll, herr, hlink, jsFalsyStr, hne,
    downloadStep, hok]
  split <;> rfl

/-- C4 witness: a completed run whose download returns non-success with
an invalid-key body yields `API_KEY_ERROR`. -/
theorem download_failure_classified_witness :
    (invalidKeyEnv.imageData == "") = false ∧
    invalidKeyEnv.download.ok = false ∧
    strIncludes invalidKeyEnv.download.body invalidKeyMsg = true ∧
    generateVideoFromImage invalidKeyEnv =
      some (Except.error
        (if strIncludes invalidKeyEnv.download.body invalidKeyMsg then "API_KEY_ERROR"
         else "Failed to download video: " ++ invalidKeyEnv.download.statusText)) :=
  ⟨by decide, by decide, by decide,
    download_failure_classified invalidKeyEnv doneResultOp "https://dl.example/video"
      (by decide) rfl rfl rfl (by decide) (by decide)⟩

/-- C5: with no image file, an empty script, or a key not marked
selected, `handleSubmit` returns at once with the state unchanged and
no generation-state assignment, and the Generate Video trigger is
either rendered disabled or not rendered at all. -/
theorem blocked_submit_is_noop (s : AppState) (outcome : Except String String)
    (h : s.imageFile = none ∨ s.script = "" ∨ s.apiKeySelected ≠ some true) :
    handleSubmit s outcome = (s, []) ∧
    (submitDisabled s = true ∨ formRendered s = false) := by
  have hb : submitBlocked s = true := by
    rcases h with h | h | h
    · simp [submitBlocked, h]
    · simp [submitBlocked, h]
    · simp [submitBlocked, beq_eq_false_iff_ne.mpr h]
  refine ⟨by simp [handleSubmit, hb], ?_⟩
  rcases h with h | h | h
  · exact Or.inl (by simp [submitDisabled, h])
  · exact Or.inl (by simp [submitDisabled, h])
  · exact Or.inr (by simp [formRendered, beq_eq_false_iff_ne.mpr h])

/-- C5 witness: submitting with the image cleared changes nothing and
the trigger is disabled. -/
theorem blocked_submit_is_noop_witness :
    noImageState.imageFile = none ∧
    handleSubmit noImageState (Except.ok "blob:demo-video") = (noImageState, []) ∧
    (submitDisabled noImageState = true ∨ formRendered noImageState = false) :=
  ⟨rfl,
    (blocked_submit_is_noop noImageState (Except.ok "blob:demo-video") (Or.inl rfl)).1,
    (blocked_submit_is_noop noImageState (Except.ok "blob:demo-video") (Or.inl rfl)).2⟩

/-- C6: `resetState` always clears the image file, preview, script,
video URL and error message, leaves the key-selected flag untouched,
and lands in `idle` exactly when a key is selected, otherwise in
`selecting_key`. -/
theorem resetState_clears (s : AppState) :
    (resetState s).imageFile = none ∧
    (resetState s).imagePreview = none ∧
    (resetState s).script = "" ∧
    (resetState s).videoUrl = none ∧
    (resetState s).error = none ∧
    (resetState s).apiKeySelected = s.apiKeySelected ∧
    (resetState s).generationState =
      (if s.apiKeySelected = some true then GenerationState.idle
       else GenerationState.selecting_key) :=
  ⟨rfl, rfl, rfl, rfl, rfl, rfl, rfl⟩

/-- C7: a run whose operation completes carrying an error payload fails
with `Video generation failed:` followed by the remote message, and the
submit handler ends in the generic error state with no video URL set. -/
theorem done_with_error_fails (env : PipelineEnv) (op : Operation) (m : String) (s : AppState)
    (himg : (env.imageData == "") = false)
    (hpoll : pollLoop env.initialOp env.polls = some (Except.ok op))
    (herr : op.error = some (OpError.mk (some m)))
    (hs : submitBlocked s = false) :
    generateVideoFromImage env =
      some (Except.error ("Video generation failed: " ++ m)) ∧
    (handleSubmit s (Except.error ("Video generation failed: " ++ m))).1.videoUrl = none ∧
    (handleSubmit s (Except.error ("Video generation failed: " ++ m))).1.generationState =
      GenerationState.error := by
  refine ⟨by simp [generateVideoFromImage, himg, hpoll, herr, jsStr], ?_, ?_⟩
  · exact (handleSubmit_generic_error s _ hs (genFailMsg_ne_apiKeyError m)).2.1
  · exact (handleSubmit_generic_error s _ hs (genFailMsg_ne_apiKeyError m)).1

/-- C7 witness: a run completing with the remote error "quota exceeded"
fails with the corresponding message, and the UI ends in the error
state with no video URL. -/
theorem done_with_error_fails_witness :
    (genErrorEnv.imageData == "") = false ∧
    submitBlocked readyState = false ∧
    generateVideoFromImage genErrorEnv =
      some (Except.error ("Video generation failed: " ++ "quota exceeded")) ∧
    (handleSubmit readyState
      (Except.error ("Video generation failed: " ++ "quota exceeded"))).1.videoUrl = none ∧
    (handleSubmit readyState
      (Except.error ("Video generation failed: " ++ "quota exceeded"))).1.generationState =
      GenerationState.error :=
  ⟨by decide, by decide,
    (done_with_error_fails genErrorEnv doneErrorOp "quota exceeded" readyState
      (by decide) rfl rfl (by decide)).1,
    (done_with_error_fails genErrorEnv doneErrorOp "quota exceeded" readyState
      (by decide) rfl rfl (by decide)).2.1,
    (done_with_error_fails genErrorEnv doneErrorOp "quota exceeded" readyState
      (by decide) rfl rfl (by decide)).2.2⟩

/-- C8: a run whose operation completes without an error payload but
with a missing (or empty) download URI fails with
`Could not retrieve video download link.`, and the submit handler ends
in the generic error state carrying exactly that message. -/
theorem missing_link_fails (env : PipelineEnv) (op : Operation) (s : AppState)
    (himg : (env.imageData == "") = false)
    (hpoll : pollLoop env.initialOp env.polls = some (Except.ok op))
    (herr : op.error = none)
    (hlink : jsFalsyStr (getDownloadLink op) = true)
    (hs : submitBlocked s = false) :
    generateVideoFromImage env =
      some (Except.error "Could not retrieve video download link.") ∧
    (handleSubmit s
      (Except.error "Could not retrieve video download link.")).1.generationState =
      GenerationState.error ∧
    (handleSubmit s
      (Except.error "Could not retrieve video download link.")).1.error =
      some "Could not retrieve video download link." := by
  have hne : (("Could not retrieve video download link." : String) == "API_KEY_ERROR") = false := by
    decide
  have hemp : (("Could not retrieve video download link." : String) == "") = false := by
    decide
  refine ⟨by simp [generateVideoFromImage, himg, hpoll, herr, hlink], ?_, ?_⟩
  · exact (handleSubmit_generic_error s _ hs hne).1
  · have h3 := (handleSubmit_generic_error s _ hs hne).2.2
    simpa [hemp] using h3

/-- C8 witness: a run completing with no download URI fails with the
missing-link message and the UI ends in the error state carrying it. -/
theorem missing_link_fails_witness :
    (missingLinkEnv.imageData == "") = false ∧
    jsFalsyStr (getDownloadLink doneBareOp) = true ∧
    submitBlocked readyState = false ∧
    generateVideoFromImage missingLinkEnv =
      some (Except.error "Could not retrieve video download link.") ∧
    (handleSubmit readyState
      (Except.error "Could not retrieve video download link.")).1.generationState =
      GenerationState.error ∧
    (handleSubmit readyState
      (Except.error "Could not retrieve video download link.")).1.error =
      some "Could not retrieve video download link." :=
  ⟨by decide, by decide, by decide,
    (missing_link_fails missingLinkEnv doneBareOp readyState
      (by decide) rfl rfl (by decide) (by decide)).1,
    (missing_link_fails missingLinkEnv doneBareOp readyState
      (by decide) rfl rfl (by decide) (by decide)).2.1,
    (missing_link_fails missingLinkEnv doneBareOp readyState
      (by decide) rfl rfl (by decide) (by decide)).2.2⟩

/-- C9: `resetState` never touches the selected aspect ratio: it keeps
its pre-reset value instead of being restored to the 16:9 default. -/
theorem resetState_preserves_aspectRatio (s : AppState) :
    (resetState s).aspectRatio = s.aspectRatio := rfl

/-- C10: whenever `openSelectKey()` resolves, `handleSelectKey`
unconditionally marks the key as selected and moves to `idle`, and its
result does not depend on what `hasSelectedApiKey()` would answer: two
environments agreeing on the dialog outcome produce the same state. -/
theorem selectKey_unconditional (env env2 : AiStudioEnv) (s : AppState)
    (h : env.openSelectKeyResult = Except.ok ()) :
    (handleSelectKey env s).apiKeySelected = some true ∧
    (handleSelectKey env s).generationState = GenerationState.idle ∧
    (env2.openSelectKeyResult = env.openSelectKeyResult →
      handleSelectKey env2 s = handleSelectKey env s) := by
  refine ⟨?_, ?_, ?_⟩
  · simp [handleSelectKey, h, onKeySelected]
  · simp [handleSelectKey, h, onKeySelected]
  · intro h2
    simp [handleSelectKey, h2]

/-- C10 witness: with a resolving dialog, the keyless state becomes
key-selected and idle, identically for a provider that would answer
`false` and one that would answer `true`. -/
theorem selectKey_unconditional_witness :
    okSelectEnvNoKey.openSelectKeyResult = Except.ok () ∧
    (handleSelectKey okSelectEnvNoKey keylessState).apiKeySelected = some true ∧
    (handleSelectKey okSelectEnvNoKey keylessState).generationState = GenerationState.idle ∧
    handleSelectKey okSelectEnvHasKey keylessState =
      handleSelectKey okSelectEnvNoKey keylessState :=
  ⟨rfl,
    (selectKey_unconditional okSelectEnvNoKey okSelectEnvHasKey keylessState rfl).1,
    (selectKey_unconditional okSelectEnvNoKey okSelectEnvHasKey keylessState rfl).2.1,
    (selectKey_unconditional okSelectEnvNoKey okSelectEnvHasKey keylessState rfl).2.2 rfl⟩

/-- C3 counterexample: a concrete successful run assigns
`generationState` only `loading` and then `success`; the distinguished
`polling` state is never entered, so the claimed
idle → loading → polling → success sequence does not occur. -/
theorem polling_never_entered_cex :
    (handleSubmit readyState (Except.ok "blob:demo-video")).2 =
      [GenerationState.loading, GenerationState.success] ∧
    GenerationState.polling ∉ (handleSubmit readyState (Except.ok "blob:demo-video")).2 ∧
    (handleSubmit readyState (Except.ok "blob:demo-video")).1.generationState =
      GenerationState.success := by
  refine ⟨by decide, by decide, by decide⟩

/-- C3 amended: every run that passes the submit guard assigns the
UI-facing state `loading` and then its terminal state (`success`,
`selecting_key` on the key-error sentinel, or `error`); the `polling`
member of `GenerationState` is declared and treated as a generating
state but is never assigned. -/
theorem submit_trace_no_polling (s : AppState) (outcome : Except String String)
    (h : submitBlocked s = false) :
    (handleSubmit s outcome).2 =
      [GenerationState.loading,
        match outcome with
        | Except.ok _ => GenerationState.success
        | Except.error m =>
          if m == "API_KEY_ERROR" then GenerationState.selecting_key
          else GenerationState.error] ∧
    GenerationState.polling ∉ (handleSubmit s outcome).2 := by
  cases outcome with
  | ok url =>
    exact ⟨by simp [handleSubmit, h], by simp [handleSubmit, h]⟩
  | error m =>
    by_cases hm : (m == "API_KEY_ERROR") = true
    · exact ⟨by simp [handleSubmit, h, hm], by simp [handleSubmit, h, hm]⟩
    · have hm' : (m == "API_KEY_ERROR") = false := by simpa using hm
      exact ⟨by simp [handleSubmit, h, hm'], by simp [handleSubmit, h, hm']⟩

/-- C3 amended witness: a failing run from the ready state assigns
`loading` then `error`, and never `polling`. -/
theorem submit_trace_no_polling_witness :
    submitBlocked readyState = false ∧
    (handleSubmit readyState (Except.error "boom")).2 =
      [GenerationState.loading, GenerationState.error] ∧
    GenerationState.polling ∉ (handleSubmit readyState (Except.error "boom")).2 :=
  ⟨by decide,
    ((submit_trace_no_polling readyState (Except.error "boom") (by decide)).1).trans
      (by decide),
    (submit_trace_no_polling readyState (Except.error "boom") (by decide)).2⟩

end Veo
